import Mathlib

/-!
Shallow embedding of the task-list web application in `src/app.py`.

The application state is a pair of tables, `users` and `items`, and an
optional session (the user id that Flask-Login stores in the session cookie).
Each route handler of `app.py` becomes a pure function from the session and
the database (plus the request's form/query data) to the new state and an
HTTP-level response.

External libraries that the handlers call into (flask_bcrypt's password
hashing, wtforms' email validator, flask_login's redirect-to-login guard)
are not part of this repository; those pieces are modelled from the spec and
carry a doc comment saying so.  Everything else is translated directly from
`src/app.py`.
-/

namespace Portfolio

/-- Modelled from the spec: the Password Hasher (`flask_bcrypt`, an external
library).  The spec (§4.2) asks for a one-way salted hash where
`verify(plaintext, digest)` holds exactly for the plaintext the digest was
derived from; the digest is modelled as a wrapper remembering that plaintext,
which is the information the verifier needs. -/
structure Digest where
  pw : String
  deriving DecidableEq, Repr

/-- Modelled from the spec: `bcrypt.generate_password_hash` (external library). -/
def generate_password_hash (p : String) : Digest := ⟨p⟩

/-- Modelled from the spec: `bcrypt.check_password_hash` (external library);
true exactly when `p` is the plaintext the digest was derived from. -/
def check_password_hash (d : Digest) (p : String) : Bool := d.pw == p

/-- The `User` model of `app.py` (`class User`): id, unique username,
unique email, and the bcrypt hash.  The plaintext password is never a field. -/
structure User where
  id : Nat
  username : String
  email : String
  password_hash : Digest
  deriving DecidableEq, Repr

/-- `AttributeError` raised by the `password` property getter. -/
inductive AppError where
  | attributeError (msg : String)
  deriving DecidableEq, Repr

/-- The `password` property getter of `class User` (app.py lines 53-55):
reading the plaintext password always raises `AttributeError`. -/
def User.password (_ : User) : Except AppError String :=
  Except.error (AppError.attributeError "password is not a readable attribute")

/-- The `password` property setter of `class User` (app.py lines 57-59):
stores the bcrypt hash of the given plaintext. -/
def User.setPassword (u : User) (p : String) : User :=
  ⟨u.id, u.username, u.email, generate_password_hash p⟩

/-- `User.verify_password` (app.py lines 62-63). -/
def User.verify_password (u : User) (p : String) : Bool :=
  check_password_hash u.password_hash p

/-- The `Item` model of `app.py` (`class Item`). -/
structure Item where
  id : Nat
  name : String
  complete : Bool
  user_id : Nat
  deriving DecidableEq, Repr

/-- The two persisted tables. -/
structure DB where
  users : List User
  items : List Item
  deriving DecidableEq, Repr

/-- An HTTP-level response: a redirect to a target URL, or a rendered
template together with the items handed to it. -/
inductive Response where
  | redirect (target : String)
  | render (template : String) (shown : List Item)
  deriving DecidableEq, Repr

/-- `load_user` (app.py lines 35-37): `db.session.get(User, user_id)`,
primary-key lookup. -/
def load_user (d : DB) (user_id : Nat) : Option User :=
  d.users.find? (fun u => u.id == user_id)

/-- Flask-Login's `current_user`: resolves the session's stored user id
back to a `User` via `load_user`; `none` when there is no session or the id
no longer resolves. -/
def currentIdentity (sess : Option Nat) (d : DB) : Option User :=
  match sess with
  | some uid => load_user d uid
  | none => none

/-- Modelled from the spec: flask_login's `@login_required` redirect
(external library).  Per §4.4 it redirects to the login entry point
remembering the originally requested path in the `next` query parameter. -/
def loginRedirect (next : String) : Response :=
  Response.redirect ("/login?next=" ++ next)

/-- Modelled from the spec: wtforms' `Email()` validator (external library);
the spec (§6) only requires "email well-formed".  Well-formed here: exactly
one at-sign, nonempty local part, nonempty domain containing a dot. -/
def validEmail (s : String) : Bool :=
  let cs := s.data
  let lcl := cs.takeWhile (fun c => c != '@')
  match cs.dropWhile (fun c => c != '@') with
  | [] => false
  | _ :: domain =>
    (lcl != []) && !(domain.contains '@') && (domain != []) && domain.contains '.'

/-- `User.query.filter_by(email=email).first()` (app.py line 169). -/
def findByEmail (d : DB) (email : String) : Option User :=
  d.users.find? (fun u => u.email == email)

/-- Autoincrement primary key for a fresh user row. -/
def freshUserId (d : DB) : Nat :=
  d.users.foldr (fun u acc => max u.id acc) 0 + 1

/-- Autoincrement primary key for a fresh item row. -/
def freshItemId (d : DB) : Nat :=
  d.items.foldr (fun i acc => max i.id acc) 0 + 1

/-- `Item.query.filter_by(author=current_user).all()` (app.py line 123):
the items whose owning identity is the given user id. -/
def listFor (d : DB) (owner : Nat) : List Item :=
  d.items.filter (fun i => i.user_id == owner)

/-- The `/` handler `index` (app.py lines 108-127), `@login_required`.
`form` is the submitted `ItemForm` name field (`none` for a plain GET).
`ItemForm` validates with `DataRequired` only. -/
def index (sess : Option Nat) (d : DB) (form : Option String) : DB × Response :=
  match currentIdentity sess d with
  | none => (d, loginRedirect "/")
  | some u =>
    match form with
    | some name =>
      if name != "" then
        (⟨d.users, d.items ++ [⟨freshItemId d, name, false, u.id⟩]⟩, Response.redirect "/")
      else
        (d, Response.render "index" (listFor d u.id))
    | none => (d, Response.render "index" (listFor d u.id))

/-- The submitted `RegistrationForm` fields (app.py lines 82-87). -/
structure RegistrationRequest where
  username : String
  email : String
  password : String
  confirm_password : String
  deriving DecidableEq, Repr

/-- `RegistrationForm.validate_on_submit()`: `DataRequired` on every field,
`Length(min=2, max=20)` on username, `Email()` on email, `Length(min=6)` on
password, `EqualTo(password)` on the confirmation. -/
def registrationFormValid (r : RegistrationRequest) : Bool :=
  (r.username != "") && decide (2 ≤ r.username.length) && decide (r.username.length ≤ 20) &&
  (r.email != "") && validEmail r.email &&
  (r.password != "") && decide (6 ≤ r.password.length) &&
  (r.confirm_password != "") && (r.confirm_password == r.password)

/-- The user-visible outcome of a registration attempt. -/
inductive RegisterOutcome where
  | success
  | duplicateUsername
  | duplicateEmail
  | invalidForm
  deriving DecidableEq, Repr

/-- The `/register` handler (app.py lines 130-156): validate the form, check
username then email for duplicates, otherwise insert the new user (hashing
the password through the `password` setter) and redirect to `/login`. -/
def register (d : DB) (r : RegistrationRequest) : DB × RegisterOutcome × Response :=
  if registrationFormValid r then
    if (d.users.find? (fun u => u.username == r.username)).isSome then
      (d, RegisterOutcome.duplicateUsername, Response.render "register" [])
    else if (d.users.find? (fun u => u.email == r.email)).isSome then
      (d, RegisterOutcome.duplicateEmail, Response.render "register" [])
    else
      (⟨d.users ++ [⟨freshUserId d, r.username, r.email, generate_password_hash r.password⟩],
        d.items⟩,
       RegisterOutcome.success, Response.redirect "/login")
  else
    (d, RegisterOutcome.invalidForm, Response.render "register" [])

/-- The submitted `LoginForm` fields plus the `next` query parameter
(`none` when the parameter is absent). -/
structure LoginRequest where
  email : String
  password : String
  next : Option String
  deriving DecidableEq, Repr

/-- `LoginForm.validate_on_submit()`: `DataRequired` and `Email()` on email,
`DataRequired` on password. -/
def loginFormValid (r : LoginRequest) : Bool :=
  (r.email != "") && validEmail r.email && (r.password != "")

/-- `redirect(next_page) if next_page else redirect(url_for('index'))`
(app.py line 179): a Python-falsy `next` (absent or empty) goes to `/`,
anything else is followed verbatim. -/
def nextRedirect (next : Option String) : Response :=
  match next with
  | some s => if s = "" then Response.redirect "/" else Response.redirect s
  | none => Response.redirect "/"

/-- The `/login` handler (app.py lines 158-183): already-authenticated
callers go to `/`; otherwise look the user up by email, verify the password,
and on success store the user id in the session and follow `next`. -/
def login (sess : Option Nat) (d : DB) (r : LoginRequest) :
    Option Nat × DB × Response :=
  match currentIdentity sess d with
  | some _ => (sess, d, Response.redirect "/")
  | none =>
    if loginFormValid r then
      match findByEmail d r.email with
      | some user =>
        if user.verify_password r.password then
          (some user.id, d, nextRedirect r.next)
        else
          (sess, d, Response.render "login" [])
      | none => (sess, d, Response.render "login" [])
    else
      (sess, d, Response.render "login" [])

/-- The `/logout` handler (app.py lines 185-189). -/
def logout (_sess : Option Nat) (d : DB) : Option Nat × DB × Response :=
  (none, d, Response.redirect "/login")

/-- `db.session.get(Item, item_id)` (app.py lines 197 and 207):
primary-key lookup of an item. -/
def dbGetItem (d : DB) (item_id : Nat) : Option Item :=
  d.items.find? (fun i => i.id == item_id)

/-- `item.complete = not item.complete` (app.py line 199) as a row
transformer: flips the flag on the row with the given primary key. -/
def toggleFn (item_id : Nat) (i : Item) : Item :=
  if i.id == item_id then ⟨i.id, i.name, !i.complete, i.user_id⟩ else i

/-- The body of `update_item` (app.py lines 197-200): if the item exists,
flip its `complete` flag and commit; otherwise change nothing. -/
def toggleComplete (d : DB) (item_id : Nat) : DB :=
  match dbGetItem d item_id with
  | some _ => ⟨d.users, d.items.map (toggleFn item_id)⟩
  | none => d

/-- The body of `delete_item` (app.py lines 207-210): if the item exists,
delete its row and commit; otherwise change nothing. -/
def deleteItem (d : DB) (item_id : Nat) : DB :=
  match dbGetItem d item_id with
  | some _ => ⟨d.users, d.items.filter (fun i => !(i.id == item_id))⟩
  | none => d

/-- The `/update_item/<item_id>` handler (app.py lines 192-202),
`@login_required`; always redirects back to `/` when authenticated. -/
def update_item (sess : Option Nat) (d : DB) (item_id : Nat) : DB × Response :=
  match currentIdentity sess d with
  | none => (d, loginRedirect ("/update_item/" ++ toString item_id))
  | some _ => (toggleComplete d item_id, Response.redirect "/")

/-- The `/delete_item/<item_id>` handler (app.py lines 204-212),
`@login_required`; always redirects back to `/` when authenticated. -/
def delete_item (sess : Option Nat) (d : DB) (item_id : Nat) : DB × Response :=
  match currentIdentity sess d with
  | none => (d, loginRedirect ("/delete_item/" ++ toString item_id))
  | some _ => (deleteItem d item_id, Response.redirect "/")

/-! ### Concrete sample data, used by the witness theorems -/

/-- A registered identity (the §8 concrete scenario of the spec). -/
def alice : User := ⟨1, "alice", "alice@x.com", generate_password_hash "secret1"⟩

/-- A second registered identity, distinct from `alice`. -/
def bob : User := ⟨2, "bob", "bob@x.com", generate_password_hash "hunter22"⟩

/-- An item owned by `alice`. -/
def milk : Item := ⟨1, "buy milk", false, 1⟩

/-- A two-user database: `alice` owns the single item, `bob` owns nothing. -/
def sampleDB : DB := ⟨[alice, bob], [milk]⟩

/-- The empty database. -/
def emptyDB : DB := ⟨[], []⟩

/-- A valid registration submission for a fresh user. -/
def regW : RegistrationRequest := ⟨"alice", "alice@x.com", "secret1", "secret1"⟩

/-! ### Helper lemmas -/

theorem toggleFn_id (k : Nat) (i : Item) : (toggleFn k i).id = i.id := by
  unfold toggleFn; split <;> rfl

theorem toggleFn_invol (k : Nat) (i : Item) : toggleFn k (toggleFn k i) = i := by
  cases i with
  | mk id name c uid =>
    unfold toggleFn
    by_cases h : (id == k) = true
    · simp [h]
    · simp [h]

theorem find?_map_toggleFn (k : Nat) (l : List Item) :
    (l.map (toggleFn k)).find? (fun i => i.id == k) =
      (l.find? (fun i => i.id == k)).map (toggleFn k) := by
  have hp : ((fun i : Item => i.id == k) ∘ toggleFn k) = fun i : Item => i.id == k := by
    funext i; simp [Function.comp, toggleFn_id]
  rw [List.find?_map, hp]

theorem toggleComplete_of_none (d : DB) (k : Nat) (h : dbGetItem d k = none) :
    toggleComplete d k = d := by
  unfold toggleComplete; rw [h]

theorem dbGetItem_toggle (d : DB) (k : Nat) (it : Item) (h : dbGetItem d k = some it) :
    toggleComplete d k = ⟨d.users, d.items.map (toggleFn k)⟩ ∧
      dbGetItem (toggleComplete d k) k = some (toggleFn k it) := by
  have h1 : toggleComplete d k = ⟨d.users, d.items.map (toggleFn k)⟩ := by
    unfold toggleComplete; rw [h]
  refine ⟨h1, ?_⟩
  rw [h1]
  unfold dbGetItem at h ⊢
  rw [find?_map_toggleFn, h]
  rfl

theorem dbGetItem_delete (d : DB) (k : Nat) (it : Item) (h : dbGetItem d k = some it) :
    dbGetItem (deleteItem d k) k = none := by
  have h1 : deleteItem d k = ⟨d.users, d.items.filter (fun i => !(i.id == k))⟩ := by
    unfold deleteItem; rw [h]
  rw [h1]
  unfold dbGetItem
  apply List.find?_eq_none.mpr
  intro x hx
  have h2 := (List.mem_filter.mp hx).2
  simp only [Bool.not_eq_eq_eq_not, Bool.not_true] at h2
  simp [h2]

theorem login_success (d : DB) (r : LoginRequest) (u : User)
    (hform : loginFormValid r = true)
    (hfind : findByEmail d r.email = some u)
    (hpw : u.verify_password r.password = true) :
    login none d r = (some u.id, d, nextRedirect r.next) := by
  simp [login, currentIdentity, hform, hfind, hpw]

/-! ### The claims -/

/-- C1: listing items for an authenticated identity (GET `/`) returns
exactly the items the owner filter selects, and every item in that list is
owned by that identity — never an item of a different identity. -/
theorem listFor_owner_only (sess : Option Nat) (d : DB) (u : User)
    (h : currentIdentity sess d = some u) :
    index sess d none = (d, Response.render "index" (listFor d u.id)) ∧
    ∀ i ∈ listFor d u.id, i.user_id = u.id := by
  constructor
  · simp [index, h]
  · intro i hi
    unfold listFor at hi
    have h2 := (List.mem_filter.mp hi).2
    simpa using h2

theorem listFor_owner_only_witness :
    currentIdentity (some 1) sampleDB = some alice ∧
    (index (some 1) sampleDB none =
        (sampleDB, Response.render "index" (listFor sampleDB alice.id)) ∧
      ∀ i ∈ listFor sampleDB alice.id, i.user_id = alice.id) :=
  ⟨by decide, listFor_owner_only (some 1) sampleDB alice (by decide)⟩

/-- C2: for an existing item and any authenticated caller — the hypotheses
place no relation between the caller `uid` and the item's owner —
`update_item` flips the item's completion flag and `delete_item` removes
the item; both then redirect to the index.  Only authentication is checked,
never ownership. -/
theorem update_delete_no_ownership (d : DB) (uid : Nat) (u : User) (k : Nat) (it : Item)
    (hauth : currentIdentity (some uid) d = some u)
    (hit : dbGetItem d k = some it) :
    (∃ it', dbGetItem (update_item (some uid) d k).1 k = some it' ∧
        it'.complete = !it.complete ∧ it'.user_id = it.user_id ∧ it'.name = it.name) ∧
    (update_item (some uid) d k).2 = Response.redirect "/" ∧
    dbGetItem (delete_item (some uid) d k).1 k = none ∧
    (delete_item (some uid) d k).2 = Response.redirect "/" := by
  have hup : update_item (some uid) d k = (toggleComplete d k, Response.redirect "/") := by
    simp [update_item, hauth]
  have hdel : delete_item (some uid) d k = (deleteItem d k, Response.redirect "/") := by
    simp [delete_item, hauth]
  have hk : (it.id == k) = true := by
    unfold dbGetItem at hit
    have hk0 := List.find?_some hit
    exact hk0
  obtain ⟨_, h2⟩ := dbGetItem_toggle d k it hit
  refine ⟨⟨toggleFn k it, ?_, ?_, ?_, ?_⟩, ?_, ?_, ?_⟩
  · rw [hup]; exact h2
  · unfold toggleFn; rw [if_pos hk]
  · unfold toggleFn; rw [if_pos hk]
  · unfold toggleFn; rw [if_pos hk]
  · rw [hup]
  · rw [hdel]; exact dbGetItem_delete d k it hit
  · rw [hdel]

theorem update_delete_no_ownership_witness :
    currentIdentity (some 2) sampleDB = some bob ∧
    dbGetItem sampleDB 1 = some milk ∧
    milk.user_id ≠ bob.id ∧
    ((∃ it', dbGetItem (update_item (some 2) sampleDB 1).1 1 = some it' ∧
        it'.complete = !milk.complete ∧ it'.user_id = milk.user_id ∧ it'.name = milk.name) ∧
      (update_item (some 2) sampleDB 1).2 = Response.redirect "/" ∧
      dbGetItem (delete_item (some 2) sampleDB 1).1 1 = none ∧
      (delete_item (some 2) sampleDB 1).2 = Response.redirect "/") :=
  ⟨by decide, by decide, by decide,
    update_delete_no_ownership sampleDB 2 bob 1 milk (by decide) (by decide)⟩

/-- C3: a valid registration (username 2-20 chars, well-formed email,
password at least 6 chars with matching confirmation) whose username and
email are fresh succeeds, appends exactly one new identity carrying the
submitted username and email, and a subsequent login with the same email
and password authenticates: it stores the new user's id in the session and
redirects to the index. -/
theorem register_then_login (d : DB) (r : RegistrationRequest)
    (hv : registrationFormValid r = true)
    (hu : d.users.find? (fun u => u.username == r.username) = none)
    (he : d.users.find? (fun u => u.email == r.email) = none) :
    ∃ nu : User,
      register d r =
        ((⟨d.users ++ [nu], d.items⟩ : DB), RegisterOutcome.success,
          Response.redirect "/login") ∧
      nu.username = r.username ∧ nu.email = r.email ∧
      login none (⟨d.users ++ [nu], d.items⟩ : DB) ⟨r.email, r.password, none⟩ =
        (some nu.id, (⟨d.users ++ [nu], d.items⟩ : DB), Response.redirect "/") := by
  have hv' := hv
  simp only [registrationFormValid, Bool.and_eq_true, bne_iff_ne, ne_eq,
    decide_eq_true_eq, beq_iff_eq] at hv'
  obtain ⟨⟨⟨⟨⟨⟨⟨⟨-, -⟩, -⟩, hem⟩, hvem⟩, hpw1⟩, -⟩, -⟩, -⟩ := hv'
  refine ⟨⟨freshUserId d, r.username, r.email, generate_password_hash r.password⟩,
    ?_, rfl, rfl, ?_⟩
  · simp [register, hv, hu, he]
  · have hform : loginFormValid ⟨r.email, r.password, none⟩ = true := by
      simp [loginFormValid, hem, hvem, hpw1]
    have hfind :
        findByEmail
          (⟨d.users ++ [⟨freshUserId d, r.username, r.email,
              generate_password_hash r.password⟩], d.items⟩ : DB) r.email =
          some ⟨freshUserId d, r.username, r.email, generate_password_hash r.password⟩ := by
      unfold findByEmail
      rw [show ((⟨d.users ++ [⟨freshUserId d, r.username, r.email,
            generate_password_hash r.password⟩], d.items⟩ : DB)).users =
          d.users ++ [⟨freshUserId d, r.username, r.email,
            generate_password_hash r.password⟩] from rfl]
      rw [List.find?_append, he]
      simp
    have hpw : User.verify_password
        ⟨freshUserId d, r.username, r.email, generate_password_hash r.password⟩
        r.password = true := by
      simp [User.verify_password, check_password_hash, generate_password_hash]
    have hl := login_success _ _ _ hform hfind hpw
    simpa [nextRedirect] using hl

theorem register_then_login_witness :
    registrationFormValid regW = true ∧
    ∃ nu : User,
      register emptyDB regW =
        ((⟨emptyDB.users ++ [nu], emptyDB.items⟩ : DB), RegisterOutcome.success,
          Response.redirect "/login") ∧
      nu.username = regW.username ∧ nu.email = regW.email ∧
      login none (⟨emptyDB.users ++ [nu], emptyDB.items⟩ : DB)
          ⟨regW.email, regW.password, none⟩ =
        (some nu.id, (⟨emptyDB.users ++ [nu], emptyDB.items⟩ : DB),
          Response.redirect "/") :=
  ⟨by decide, register_then_login emptyDB regW (by decide) rfl rfl⟩

/-- C4: for an identity whose stored hash was derived from a plaintext
`p`, `verify_password` accepts exactly `p` and rejects every other string —
in particular any one-character perturbation of `p`, which is a different
string. -/
theorem verify_password_exact (u : User) (p : String)
    (h : u.password_hash = generate_password_hash p) :
    u.verify_password p = true ∧
    ∀ q : String, q ≠ p → u.verify_password q = false := by
  constructor
  · simp [User.verify_password, check_password_hash, h, generate_password_hash]
  · intro q hq
    simp only [User.verify_password, check_password_hash, h, generate_password_hash,
      beq_eq_false_iff_ne, ne_eq]
    exact fun h2 => hq h2.symm

theorem verify_password_exact_witness :
    alice.password_hash = generate_password_hash "secret1" ∧
    alice.verify_password "secret1" = true ∧
    alice.verify_password "secret2" = false :=
  ⟨rfl, (verify_password_exact alice "secret1" rfl).1,
    (verify_password_exact alice "secret1" rfl).2 "secret2" (by decide)⟩

/-- C5: a validated registration whose username already exists fails with
the duplicate-username outcome, and one whose username is fresh but whose
email already exists fails with the duplicate-email outcome; in both cases
the returned database is the unchanged `d` — no identity is created. -/
theorem register_duplicate_rejected (d : DB) (r : RegistrationRequest)
    (hv : registrationFormValid r = true) :
    ((d.users.find? (fun u => u.username == r.username)).isSome = true →
      register d r = (d, RegisterOutcome.duplicateUsername, Response.render "register" [])) ∧
    (d.users.find? (fun u => u.username == r.username) = none →
      (d.users.find? (fun u => u.email == r.email)).isSome = true →
      register d r = (d, RegisterOutcome.duplicateEmail, Response.render "register" [])) := by
  constructor
  · intro hdup
    simp [register, hv, hdup]
  · intro hfresh hdup
    simp [register, hv, hfresh, hdup]

theorem register_duplicate_rejected_witness :
    register sampleDB ⟨"alice", "fresh@y.com", "secret1", "secret1"⟩ =
      (sampleDB, RegisterOutcome.duplicateUsername, Response.render "register" []) ∧
    register sampleDB ⟨"carol", "alice@x.com", "secret1", "secret1"⟩ =
      (sampleDB, RegisterOutcome.duplicateEmail, Response.render "register" []) :=
  ⟨(register_duplicate_rejected sampleDB
      ⟨"alice", "fresh@y.com", "secret1", "secret1"⟩ (by decide)).1 (by decide),
    (register_duplicate_rejected sampleDB
      ⟨"carol", "alice@x.com", "secret1", "secret1"⟩ (by decide)).2 (by decide) (by decide)⟩

/-- C6: a request to the protected index without a session is aborted with
a redirect to the login entry point carrying the requested path in `next`,
and a subsequent successful login whose request carries `next = "/"`
redirects back to `/`. -/
theorem gate_and_next (d : DB) (form : Option String) (r : LoginRequest) (u : User)
    (hnext : r.next = some "/")
    (hform : loginFormValid r = true)
    (hfind : findByEmail d r.email = some u)
    (hpw : u.verify_password r.password = true) :
    index none d form = (d, Response.redirect "/login?next=/") ∧
    login none d r = (some u.id, d, Response.redirect "/") := by
  constructor
  · rfl
  · have hl := login_success d r u hform hfind hpw
    rw [hl, hnext]
    simp [nextRedirect]

theorem gate_and_next_witness :
    index none sampleDB none = (sampleDB, Response.redirect "/login?next=/") ∧
    login none sampleDB ⟨"alice@x.com", "secret1", some "/"⟩ =
      (some alice.id, sampleDB, Response.redirect "/") :=
  gate_and_next sampleDB none ⟨"alice@x.com", "secret1", some "/"⟩ alice
    rfl (by decide) (by decide) (by decide)

/-- C7: applying `toggleComplete` twice at any id restores the database
exactly (double-toggle is the identity), and a single application at an
existing item's id flips that item's completion flag. -/
theorem toggle_involution (d : DB) (k : Nat) :
    toggleComplete (toggleComplete d k) k = d ∧
    ∀ it, dbGetItem d k = some it →
      ∃ it', dbGetItem (toggleComplete d k) k = some it' ∧
        it'.complete = !it.complete := by
  constructor
  · cases h : dbGetItem d k with
    | none =>
      rw [toggleComplete_of_none d k h, toggleComplete_of_none d k h]
    | some it =>
      obtain ⟨h1, h2⟩ := dbGetItem_toggle d k it h
      have h5 := (dbGetItem_toggle (toggleComplete d k) k (toggleFn k it) h2).1
      rw [h5, h1]
      show (⟨d.users, (d.items.map (toggleFn k)).map (toggleFn k)⟩ : DB) = d
      rw [List.map_map]
      have hff : (toggleFn k ∘ toggleFn k) = id := funext fun i => toggleFn_invol k i
      rw [hff, List.map_id]
  · intro it h
    obtain ⟨-, h2⟩ := dbGetItem_toggle d k it h
    refine ⟨toggleFn k it, h2, ?_⟩
    have hk : (it.id == k) = true := by
      unfold dbGetItem at h
      have hk0 := List.find?_some h
      exact hk0
    unfold toggleFn
    rw [if_pos hk]

theorem toggle_involution_witness :
    toggleComplete (toggleComplete sampleDB 1) 1 = sampleDB ∧
    dbGetItem sampleDB 1 = some milk ∧
    (∃ it', dbGetItem (toggleComplete sampleDB 1) 1 = some it' ∧
      it'.complete = !milk.complete) :=
  ⟨(toggle_involution sampleDB 1).1, by decide,
    (toggle_involution sampleDB 1).2 milk (by decide)⟩

/-- C8: when the requested item id matches no stored item, an
authenticated `update_item` and `delete_item` both leave the database
exactly as it was and complete normally by redirecting to the index. -/
theorem missing_item_noop (d : DB) (uid : Nat) (u : User) (k : Nat)
    (hauth : currentIdentity (some uid) d = some u)
    (hmiss : dbGetItem d k = none) :
    update_item (some uid) d k = (d, Response.redirect "/") ∧
    delete_item (some uid) d k = (d, Response.redirect "/") := by
  constructor
  · simp [update_item, hauth, toggleComplete, hmiss]
  · simp [delete_item, hauth, deleteItem, hmiss]

theorem missing_item_noop_witness :
    dbGetItem sampleDB 99 = none ∧
    update_item (some 1) sampleDB 99 = (sampleDB, Response.redirect "/") ∧
    delete_item (some 1) sampleDB 99 = (sampleDB, Response.redirect "/") :=
  ⟨by decide,
    (missing_item_noop sampleDB 1 alice 99 (by decide) (by decide)).1,
    (missing_item_noop sampleDB 1 alice 99 (by decide) (by decide)).2⟩

/-- C9: reading the plaintext `password` attribute of any stored identity
fails with the `AttributeError` access error; only setting is possible, and
setting stores the hash derived by the Password Hasher, against which
verification then compares — never a stored plaintext. -/
theorem password_never_readable (u : User) (p : String) :
    u.password =
      Except.error (AppError.attributeError "password is not a readable attribute") ∧
    (u.setPassword p).password_hash = generate_password_hash p ∧
    ∀ q : String, (u.setPassword p).verify_password q =
      check_password_hash (generate_password_hash p) q := by
  exact ⟨rfl, rfl, fun _ => rfl⟩

/-- C10: a successful login whose request carries a non-empty `next`
parameter redirects to exactly that value, with no restriction to local
paths; when `next` is absent or empty the redirect goes to the index. -/
theorem login_follows_next (d : DB) (r : LoginRequest) (u : User)
    (hform : loginFormValid r = true)
    (hfind : findByEmail d r.email = some u)
    (hpw : u.verify_password r.password = true) :
    (∀ s : String, r.next = some s → s ≠ "" →
      login none d r = (some u.id, d, Response.redirect s)) ∧
    ((r.next = none ∨ r.next = some "") →
      login none d r = (some u.id, d, Response.redirect "/")) := by
  have hl := login_success d r u hform hfind hpw
  constructor
  · intro s hs hne
    rw [hl, hs]
    simp [nextRedirect, hne]
  · intro hcase
    rcases hcase with hc | hc <;> rw [hl, hc] <;> simp [nextRedirect]

theorem login_follows_next_witness :
    login none sampleDB ⟨"alice@x.com", "secret1", some "http://evil.example/"⟩ =
      (some alice.id, sampleDB, Response.redirect "http://evil.example/") ∧
    login none sampleDB ⟨"alice@x.com", "secret1", none⟩ =
      (some alice.id, sampleDB, Response.redirect "/") :=
  ⟨(login_follows_next sampleDB ⟨"alice@x.com", "secret1", some "http://evil.example/"⟩
        alice (by decide) (by decide) (by decide)).1
      "http://evil.example/" rfl (by decide),
    (login_follows_next sampleDB ⟨"alice@x.com", "secret1", none⟩
        alice (by decide) (by decide) (by decide)).2 (Or.inl rfl)⟩

end Portfolio
